import Mathlib

/-!
# hpm: Bluetooth battery sampler (`cmd/main.go`)

A shallow embedding of `GetDevice`, `SearchAll`, `GetDeviceByAddress` and the
sampling loop of `rootCmd.RunE`, followed by the properties proved about them.

Modelling conventions.

* The system bus is an input: a `Bus` value gives the replies the bus makes to
  the three calls the program issues (introspection of the controller root,
  `Properties.GetAll` on the device interface, `Properties.Get` of
  `Battery1.Percentage`).
* A call either returns, or ends the process through `os.Exit`, or panics
  (`Ret`).
* A `dbus.Variant` is a tagged value.  `Variant.null` is the zero `Variant`
  (what a Go map lookup yields for an absent key and what `GetProperty` yields
  when the call fails); its `Value()` is `nil`.
* `Variant.Store(&x)` follows the bus library: on the zero `Variant` it panics
  (it asks the `reflect` type of a `nil` value); on a value convertible to the
  type of the destination it overwrites the destination; on any other value it
  returns an error, which `GetDevice` discards, and the destination keeps its
  value.
* Go `int` is taken to be 64 bits wide.
* A gauge holds `float64(v)` for an integer `v`; the embedding records `v`.
* The loop never returns; `runLoop` gives what a run has reached after a finite
  list of ticks.
-/

namespace Hpm

/-! ## Calls -/

/-- How a call ends. -/
inductive Ret (α : Type) where
  /-- The call returns `val`. -/
  | ok (val : α)
  /-- The process ends inside the call through `os.Exit(code)`. -/
  | exit (code : Nat)
  /-- The call panics; nothing recovers, the process dies. -/
  | panic
  deriving DecidableEq, Repr

/-! ## Bus values -/

/-- A `dbus.Variant` as seen by `GetDevice`. -/
inductive Variant where
  /-- The zero `Variant`: `Value()` is `nil`. -/
  | null
  /-- A D-Bus boolean. -/
  | bool (b : Bool)
  /-- A value of one of the D-Bus integer types, with its numeric value. -/
  | int (v : Int)
  /-- A finite D-Bus double of value `num / den` (`den` positive). -/
  | double (num : Int) (den : Nat)
  /-- A value of a string type. -/
  | str (s : String)
  /-- Any other value (array, dictionary, structure): converts to none of
  `bool`, `int`, `string`. -/
  | other
  deriving DecidableEq, Repr

/-- `v.Value() != nil`. -/
def Variant.valueNotNil : Variant → Bool
  | .null => false
  | _ => true

/-- Conversion of an integer to Go `int` (two's complement, 64 bits). -/
def toGoInt (v : Int) : Int :=
  (v + 2 ^ 63) % 2 ^ 64 - 2 ^ 63

/-- Go conversion of the double `num / den` to `int`: the fraction is
discarded (truncation toward zero). Outside the range of `int` the result is
implementation-defined in Go; the embedding wraps. -/
def truncToGoInt (num : Int) (den : Nat) : Int :=
  toGoInt (Int.tdiv num den)

/-- Go `string(rune(v))` as performed by an integer-to-string conversion:
the one-character string of the code point, or U+FFFD when `v` is no valid
code point. -/
def runeString (v : Int) : String :=
  if 0 ≤ v ∧ (v < 0xd800 ∨ (0xdfff < v ∧ v < 0x110000)) then
    String.singleton (Char.ofNat v.toNat)
  else
    String.singleton (Char.ofNat 0xfffd)

/-- `v.Store(&dest)` for `dest : bool`, the returned error discarded: the new
value of `dest`, or a panic on the zero `Variant`. -/
def Variant.storeBool (v : Variant) (dest : Bool) : Ret Bool :=
  match v with
  | .null => .panic
  | .bool b => .ok b
  | _ => .ok dest

/-- `v.Store(&dest)` for `dest : int`, the returned error discarded. -/
def Variant.storeInt (v : Variant) (dest : Int) : Ret Int :=
  match v with
  | .null => .panic
  | .int n => .ok (toGoInt n)
  | .double num den => .ok (truncToGoInt num den)
  | _ => .ok dest

/-- `v.Store(&dest)` for `dest : string`, the returned error discarded. -/
def Variant.storeString (v : Variant) (dest : String) : Ret String :=
  match v with
  | .null => .panic
  | .str s => .ok s
  | .int n => .ok (runeString n)
  | _ => .ok dest

/-- A `map[string]dbus.Variant`; the `nil` map is the empty list. -/
abbrev PropMap := List (String × Variant)

/-- Go map indexing `info[key]`: the zero `Variant` for an absent key. -/
def PropMap.index (info : PropMap) (key : String) : Variant :=
  (info.lookup key).getD Variant.null

/-- An object path of the bus. -/
abbrev ObjectPath := String

/-- The replies of the bus to the calls of the program. -/
structure Bus where
  /-- Names of the child `node` elements that `xml.Unmarshal` extracts from
  the introspection reply of the controller root; `none` when unmarshalling
  fails (an empty reply after a failed call included). -/
  introspect : Option (List String)
  /-- Reply map of `Properties.GetAll(org.bluez.Device1)` on an object; the
  empty map when the call fails (nothing is stored into `info`). -/
  getAll : ObjectPath → PropMap
  /-- Result of `GetProperty(org.bluez.Battery1.Percentage)` on an object; the
  zero `Variant` when the call fails. -/
  getBattery : ObjectPath → Variant

/-! ## Device snapshot -/

/-- The `Device` struct. -/
structure Device where
  name : String
  percentage : Int
  address : String
  connected : Bool
  paired : Bool
  deriving DecidableEq, Repr

/-- `GetDevice(bus, obj)`. The two unguarded stores come first; the stores of
the battery value, of `Name` and of `Address` run only behind their
`Value() != nil` guard. -/
def GetDevice (bus : Bus) (obj : ObjectPath) : Ret Device :=
  let info := bus.getAll obj
  match (info.index "Connected").storeBool false with
  | .panic => .panic
  | .exit code => .exit code
  | .ok connec =>
  match (info.index "Paired").storeBool false with
  | .panic => .panic
  | .exit code => .exit code
  | .ok pair =>
  let perc : Int := -1
  match (if pair then
          let bat := bus.getBattery obj
          if bat.valueNotNil then bat.storeInt perc else .ok perc
        else .ok perc) with
  | .panic => .panic
  | .exit code => .exit code
  | .ok perc =>
  match (if (info.index "Name").valueNotNil then (info.index "Name").storeString ""
        else .ok "") with
  | .panic => .panic
  | .exit code => .exit code
  | .ok name =>
  match (if (info.index "Address").valueNotNil then (info.index "Address").storeString ""
        else .ok "") with
  | .panic => .panic
  | .exit code => .exit code
  | .ok addr =>
  .ok { name := name, percentage := perc, address := addr, connected := connec, paired := pair }

/-! ## Directory -/

/-- The constant `bluezPath`. -/
def bluezPath : String := "/org/bluez/hci0"

/-- `SearchAll(bus)`: the handles of the children of the controller root, in
the order of the introspection reply; `os.Exit(1)` after an unmarshalling
error. -/
def SearchAll (bus : Bus) : Ret (List ObjectPath) :=
  match bus.introspect with
  | none => .exit 1
  | some nodes => .ok (nodes.map (fun name => bluezPath ++ "/" ++ name))

/-- The `for _, d := range devices` loop of `GetDeviceByAddress`. -/
def findByAddress (bus : Bus) (address : String) : List ObjectPath → Ret (Option ObjectPath)
  | [] => .ok none
  | d :: rest =>
    match GetDevice bus d with
    | .panic => .panic
    | .exit code => .exit code
    | .ok dd => if dd.address = address then .ok (some d) else findByAddress bus address rest

/-- `GetDeviceByAddress(conn, address)`; `none` is the `nil` pointer. -/
def GetDeviceByAddress (bus : Bus) (address : String) : Ret (Option ObjectPath) :=
  match SearchAll bus with
  | .panic => .panic
  | .exit code => .exit code
  | .ok devices => findByAddress bus address devices

/-! ## Sampling loop -/

/-- A line written by the standard logger: `line` for a formatted or literal
string, `error` for `log.Println(err)` of an error value. -/
inductive LogEntry where
  | line (s : String)
  | error (e : String)
  deriving DecidableEq, Repr

/-- The values read once at startup through viper. -/
structure Config where
  device : String
  pep : String
  pj : String
  interval : Int

/-- One call of `pusher1.Push()`: the gateway URL and job, the `address`
grouping label, the two gauge values collected, and the error returned. -/
structure Push where
  endpoint : String
  job : String
  address : String
  battery_level : Int
  connected : Int
  err : Option String
  deriving DecidableEq, Repr

/-- The variables of the `for` loop of `RunE` together with the effects
accumulated so far. -/
structure LoopState where
  /-- The local `lost`. -/
  lost : Bool
  /-- Value of the gauge `battery`. -/
  battery : Int
  /-- Value of the gauge `connected`. -/
  connected : Int
  /-- Lines logged, oldest first. -/
  log : List LogEntry
  /-- Calls of `Push`, oldest first. -/
  pushes : List Push
  /-- Durations in seconds passed to `time.Sleep`, oldest first. -/
  slept : List Int
  deriving DecidableEq, Repr

/-- What one iteration of the loop meets: the state of the bus when
`GetDevice` is called and the error, if any, returned by `Push`. -/
structure Tick where
  bus : Bus
  pushErr : Option String

/-- The body of the `for` loop of `RunE` after `di := GetDevice(conn, *d)`
returned. -/
def tickWith (cfg : Config) (st : LoopState) (di : Device) (pushErr : Option String) :
    LoopState :=
  let st := { st with battery := di.percentage }
  let st :=
    if di.connected then
      let st :=
        if st.lost then
          { st with log := st.log ++ [LogEntry.line "Connected"], lost := false }
        else st
      { st with connected := 1 }
    else
      let st :=
        if !st.lost then
          { st with log := st.log ++ [LogEntry.line "Disconnected"], lost := true }
        else st
      { st with connected := 0, battery := 0 }
  let st :=
    { st with pushes := st.pushes ++
        [({ endpoint := cfg.pep, job := cfg.pj, address := cfg.device,
            battery_level := st.battery, connected := st.connected,
            err := pushErr } : Push)] }
  let st :=
    match pushErr with
    | some e => { st with log := st.log ++ [LogEntry.error e] }
    | none => st
  { st with slept := st.slept ++ [cfg.interval] }

/-- One iteration of the `for` loop of `RunE`. -/
def tick (cfg : Config) (d : ObjectPath) (st : LoopState) (t : Tick) : Ret LoopState :=
  match GetDevice t.bus d with
  | .panic => .panic
  | .exit code => .exit code
  | .ok di => .ok (tickWith cfg st di t.pushErr)

/-- How `RunE` stands. -/
inductive Outcome where
  /-- `RunE` returned the error `err`; `main` prints it and exits with status 1. -/
  | failed (err : String)
  /-- The process exited through `os.Exit(code)`. -/
  | exited (code : Nat)
  /-- The process died of a panic. -/
  | panicked
  /-- The loop is running. -/
  | looping
  deriving DecidableEq, Repr

/-- A run after a finite number of ticks: how it stands and the state reached
(gauges, log, pushes made, sleeps). -/
structure Result where
  outcome : Outcome
  state : LoopState
  deriving DecidableEq, Repr

/-- The `for` loop of `RunE` on the given ticks: it goes on as long as the
ticks return; a tick that does not return ends the process in the state the
previous ticks left. -/
def runLoop (cfg : Config) (d : ObjectPath) : LoopState → List Tick → Result
  | st, [] => { outcome := Outcome.looping, state := st }
  | st, t :: ts =>
    match tick cfg d st t with
    | .panic => { outcome := Outcome.panicked, state := st }
    | .exit code => { outcome := Outcome.exited code, state := st }
    | .ok st' => runLoop cfg d st' ts

/-- The state of a run before anything happened: both gauges fresh (zero),
nothing pushed, nothing slept, `log` as given. `lost` is the value assigned
when the loop is entered (`lost := true`); nothing reads it earlier. -/
def loopInit (log : List LogEntry) : LoopState :=
  { lost := true, battery := 0, connected := 0, log := log, pushes := [], slept := [] }

/-- What startup logs before the device is resolved. -/
def startupLog (cfg : Config) : List LogEntry :=
  [LogEntry.line ("Interval: " ++ toString cfg.interval),
   LogEntry.line ("Push gateway endpoint: " ++ cfg.pep)]

/-- `rootCmd.RunE`: `connectErr` is the error of `dbus.ConnectSystemBus`, if
any; `bus` the state of the bus at startup; `ticks` what the iterations of the
loop meet. -/
def RunE (cfg : Config) (connectErr : Option String) (bus : Bus) (ticks : List Tick) : Result :=
  match connectErr with
  | some err => { outcome := Outcome.failed err, state := loopInit [] }
  | none =>
    let st := loopInit (startupLog cfg)
    match GetDeviceByAddress bus cfg.device with
    | .panic => { outcome := Outcome.panicked, state := st }
    | .exit code => { outcome := Outcome.exited code, state := st }
    | .ok none =>
      { outcome := Outcome.failed ("no device found '" ++ cfg.device ++ "'"), state := st }
    | .ok (some d) => runLoop cfg d st ticks

/-! ## The resolution the specification describes -/

/-- ASCII case folding of an address. -/
def foldCase (s : String) : List Char :=
  s.data.map Char.toLower

/-- Resolution as the specification words it: the first handle whose address
equals the requested one under case-insensitive comparison. -/
def specResolve (bus : Bus) (address : String) : List ObjectPath → Ret (Option ObjectPath)
  | [] => .ok none
  | d :: rest =>
    match GetDevice bus d with
    | .panic => .panic
    | .exit code => .exit code
    | .ok dd =>
      if foldCase dd.address = foldCase address then .ok (some d)
      else specResolve bus address rest

/-! ## Test fixtures -/

/-- The property map of a known device: paired, named, with the given link
state and address. -/
def infoOf (connected : Bool) (address : String) : PropMap :=
  [("Address", Variant.str address), ("Name", Variant.str "WH-1000XM4"),
   ("Paired", Variant.bool true), ("Connected", Variant.bool connected)]

/-- A bus with one device `dev_AA` whose `GetAll` reply is `info` and whose
battery reply is `bat`. -/
def busOf (info : PropMap) (bat : Variant) : Bus :=
  { introspect := some ["dev_AA"], getAll := fun _ => info, getBattery := fun _ => bat }

/-- A tick that reads the device `AA:BB:CC:DD:EE:FF` with link state `c` and
battery 77, with a successful push. -/
def obsTick (c : Bool) : Tick :=
  { bus := busOf (infoOf c "AA:BB:CC:DD:EE:FF") (Variant.int 77), pushErr := none }

/-- The default configuration of `main`. -/
def cfg0 : Config :=
  { device := "00:00:00:00:00:00", pep := "http://localhost:9091/", pj := "battery", interval := 30 }

/-! ## Auxiliary definitions -/

/-- The `connected` field of the snapshot that tick `t` reads for handle `d`;
`none` when the read does not return. -/
def observed (d : ObjectPath) (t : Tick) : Option Bool :=
  match GetDevice t.bus d with
  | .ok s => some s.connected
  | _ => none

/-- The lines that `log.Println(err)` adds for the result of one push. -/
def pushLog (pushErr : Option String) : List LogEntry :=
  match pushErr with
  | some e => [LogEntry.error e]
  | none => []

/-- Whether a log entry is a plain line (not a logged error value). -/
def LogEntry.isLine : LogEntry → Bool
  | .line _ => true
  | .error _ => false

/-- The edge logger as the state machine of the specification: the lines it
emits from state `lost` on a sequence of connected observations. -/
def edgeLines (lost : Bool) : List Bool → List LogEntry
  | [] => []
  | c :: cs =>
    (if c && lost then [LogEntry.line "Connected"]
     else if !c && !lost then [LogEntry.line "Disconnected"]
     else []) ++ edgeLines (!c) cs

/-- Two loop states that differ at most in what was logged and in the errors
the pushes returned. -/
def SameSamples (a b : LoopState) : Prop :=
  a.lost = b.lost ∧ a.battery = b.battery ∧ a.connected = b.connected ∧
  a.pushes.map (fun p => (p.battery_level, p.connected, p.address))
    = b.pushes.map (fun p => (p.battery_level, p.connected, p.address)) ∧
  a.slept = b.slept

/-- What a successful store into a `bool` initialised to `false` leaves. -/
def Variant.asBool : Variant → Bool
  | .bool b => b
  | _ => false

/-- What the guarded store of the battery reply leaves in `perc`. -/
def percOf : Variant → Int
  | .int n => toGoInt n
  | .double num den => truncToGoInt num den
  | _ => -1

/-- What the guarded store into a `string` initialised to `""` leaves. -/
def Variant.asString : Variant → String
  | .str s => s
  | .int n => runeString n
  | _ => ""

/-- The snapshot `GetDevice` returns when it returns. -/
def snapshotOf (bus : Bus) (obj : ObjectPath) : Device :=
  { name := ((bus.getAll obj).index "Name").asString,
    percentage :=
      if ((bus.getAll obj).index "Paired").asBool then percOf (bus.getBattery obj) else -1,
    address := ((bus.getAll obj).index "Address").asString,
    connected := ((bus.getAll obj).index "Connected").asBool,
    paired := ((bus.getAll obj).index "Paired").asBool }

/-! ## Lemmas on `GetDevice` -/

theorem guard_storeInt (bat : Variant) :
    (if bat.valueNotNil then bat.storeInt (-1) else Ret.ok (-1)) = Ret.ok (percOf bat) := by
  cases bat <;> rfl

theorem guard_storeString (v : Variant) :
    (if v.valueNotNil then v.storeString "" else Ret.ok "") = Ret.ok v.asString := by
  cases v <;> rfl

theorem storeBool_of_ne_null (v : Variant) (h : v ≠ Variant.null) :
    v.storeBool false = Ret.ok v.asBool := by
  cases v <;> first | rfl | exact absurd rfl h

theorem storeBool_null (dest : Bool) : Variant.null.storeBool dest = Ret.panic := rfl

theorem GetDevice_eq (bus : Bus) (obj : ObjectPath) :
    GetDevice bus obj
      = if (bus.getAll obj).index "Connected" = Variant.null
            ∨ (bus.getAll obj).index "Paired" = Variant.null then Ret.panic
        else Ret.ok (snapshotOf bus obj) := by
  unfold GetDevice
  simp only [guard_storeString]
  by_cases hC : (bus.getAll obj).index "Connected" = Variant.null
  · simp [hC, storeBool_null]
  · by_cases hP : (bus.getAll obj).index "Paired" = Variant.null
    · rw [storeBool_of_ne_null _ hC]
      simp [hP, storeBool_null]
    · simp only [hC, hP, storeBool_of_ne_null _ hC, storeBool_of_ne_null _ hP, or_self,
        if_false]
      cases hb : ((bus.getAll obj).index "Paired").asBool
      · simp [snapshotOf, hb]
      · simp [snapshotOf, hb, guard_storeInt]

theorem GetDevice_ne_exit (bus : Bus) (obj : ObjectPath) (code : Nat) :
    GetDevice bus obj ≠ Ret.exit code := by
  rw [GetDevice_eq]
  split <;> simp

theorem GetDevice_ok_inv (bus : Bus) (obj : ObjectPath) (s : Device)
    (h : GetDevice bus obj = Ret.ok s) :
    (bus.getAll obj).index "Connected" ≠ Variant.null ∧
    (bus.getAll obj).index "Paired" ≠ Variant.null ∧ s = snapshotOf bus obj := by
  rw [GetDevice_eq] at h
  split at h
  · simp at h
  · rename_i hn
    simp only [not_or] at hn
    simp only [Ret.ok.injEq] at h
    exact ⟨hn.1, hn.2, h.symm⟩

theorem GetDevice_ok_of (bus : Bus) (obj : ObjectPath)
    (hC : (bus.getAll obj).index "Connected" ≠ Variant.null)
    (hP : (bus.getAll obj).index "Paired" ≠ Variant.null) :
    GetDevice bus obj = Ret.ok (snapshotOf bus obj) := by
  rw [GetDevice_eq]
  simp [hC, hP]

theorem GetDevice_panic_of (bus : Bus) (obj : ObjectPath)
    (h : (bus.getAll obj).index "Connected" = Variant.null
      ∨ (bus.getAll obj).index "Paired" = Variant.null) :
    GetDevice bus obj = Ret.panic := by
  rw [GetDevice_eq]
  simp [h]

theorem index_of_lookup_none (info : PropMap) (key : String) (h : info.lookup key = none) :
    info.index key = Variant.null := by
  simp [PropMap.index, h]

theorem index_of_lookup_some (info : PropMap) (key : String) (v : Variant)
    (h : info.lookup key = some v) : info.index key = v := by
  simp [PropMap.index, h]

/-! ## Lemmas on one tick -/

theorem tickWith_lost (cfg : Config) (st : LoopState) (s : Device) (e : Option String) :
    (tickWith cfg st s e).lost = !s.connected := by
  unfold tickWith
  cases hc : s.connected <;> cases hl : st.lost <;> cases e <;> simp [hc, hl]

theorem tickWith_log (cfg : Config) (st : LoopState) (s : Device) (e : Option String) :
    (tickWith cfg st s e).log
      = st.log
        ++ (if s.connected && st.lost then [LogEntry.line "Connected"]
            else if !s.connected && !st.lost then [LogEntry.line "Disconnected"]
            else [])
        ++ pushLog e := by
  unfold tickWith pushLog
  cases hc : s.connected <;> cases hl : st.lost <;> cases e <;> simp [hc, hl]

theorem tickWith_sample (cfg : Config) (st : LoopState) (s : Device) (e : Option String) :
    (tickWith cfg st s e).battery = (if s.connected then s.percentage else 0) ∧
    (tickWith cfg st s e).connected = (if s.connected then 1 else 0) ∧
    (tickWith cfg st s e).pushes = st.pushes ++
      [({ endpoint := cfg.pep, job := cfg.pj, address := cfg.device,
          battery_level := if s.connected then s.percentage else 0,
          connected := if s.connected then 1 else 0,
          err := e } : Push)] := by
  unfold tickWith
  cases hc : s.connected <;> cases hl : st.lost <;> cases e <;> simp [hc, hl]

theorem tickWith_slept (cfg : Config) (st : LoopState) (s : Device) (e : Option String) :
    (tickWith cfg st s e).slept = st.slept ++ [cfg.interval] := by
  unfold tickWith
  cases hc : s.connected <;> cases hl : st.lost <;> cases e <;> simp [hc, hl]

theorem tick_of_ok (cfg : Config) (d : ObjectPath) (st : LoopState) (t : Tick) (s : Device)
    (h : GetDevice t.bus d = Ret.ok s) :
    tick cfg d st t = Ret.ok (tickWith cfg st s t.pushErr) := by
  simp [tick, h]

theorem tick_of_panic (cfg : Config) (d : ObjectPath) (st : LoopState) (t : Tick)
    (h : GetDevice t.bus d = Ret.panic) : tick cfg d st t = Ret.panic := by
  simp [tick, h]

theorem observed_of_ok (d : ObjectPath) (t : Tick) (s : Device)
    (h : GetDevice t.bus d = Ret.ok s) : observed d t = some s.connected := by
  simp [observed, h]

theorem observed_eq_some (d : ObjectPath) (t : Tick) (c : Bool) (h : observed d t = some c) :
    ∃ s, GetDevice t.bus d = Ret.ok s ∧ s.connected = c := by
  unfold observed at h
  cases hg : GetDevice t.bus d with
  | ok s =>
    rw [hg] at h
    simp only [Option.some.injEq] at h
    exact ⟨s, rfl, h⟩
  | exit code => rw [hg] at h; simp at h
  | panic => rw [hg] at h; simp at h

theorem pushLog_filter (e : Option String) :
    (pushLog e).filter LogEntry.isLine = [] := by
  cases e <;> rfl

theorem line_not_mem_pushLog (s : String) (e : Option String) :
    LogEntry.line s ∉ pushLog e := by
  cases e <;> simp [pushLog]

/-! ## Lemmas on runs -/

theorem runLoop_nil (cfg : Config) (d : ObjectPath) (st : LoopState) :
    runLoop cfg d st [] = { outcome := Outcome.looping, state := st } := rfl

theorem runLoop_cons_ok (cfg : Config) (d : ObjectPath) (st : LoopState) (t : Tick)
    (ts : List Tick) (s : Device) (h : GetDevice t.bus d = Ret.ok s) :
    runLoop cfg d st (t :: ts) = runLoop cfg d (tickWith cfg st s t.pushErr) ts := by
  simp [runLoop, tick_of_ok cfg d st t s h]

theorem runLoop_cons_panic (cfg : Config) (d : ObjectPath) (st : LoopState) (t : Tick)
    (ts : List Tick) (h : GetDevice t.bus d = Ret.panic) :
    runLoop cfg d st (t :: ts) = { outcome := Outcome.panicked, state := st } := by
  simp [runLoop, tick_of_panic cfg d st t h]

theorem runLoop_append_ok (cfg : Config) (d : ObjectPath) (ts us : List Tick)
    (st : LoopState) (hret : ∀ t ∈ ts, ∃ s, GetDevice t.bus d = Ret.ok s) :
    (runLoop cfg d st ts).outcome = Outcome.looping ∧
    runLoop cfg d st (ts ++ us) = runLoop cfg d (runLoop cfg d st ts).state us := by
  induction ts generalizing st with
  | nil => exact ⟨rfl, rfl⟩
  | cons t ts ih =>
    obtain ⟨s, hs⟩ := hret t (List.mem_cons_self t ts)
    have ih' := ih (tickWith cfg st s t.pushErr)
      (fun u hu => hret u (List.mem_cons_of_mem t hu))
    rw [List.cons_append, runLoop_cons_ok cfg d st t ts s hs,
      runLoop_cons_ok cfg d st t (ts ++ us) s hs]
    exact ih'

theorem runLoop_take_succ (cfg : Config) (d : ObjectPath) (st : LoopState) (ts : List Tick)
    (i : Nat) (h : i < ts.length)
    (hret : ∀ t ∈ ts.take (i + 1), ∃ s, GetDevice t.bus d = Ret.ok s) :
    ∃ s, GetDevice (ts.get ⟨i, h⟩).bus d = Ret.ok s ∧
      (runLoop cfg d st (ts.take i)).outcome = Outcome.looping ∧
      runLoop cfg d st (ts.take (i + 1))
        = { outcome := Outcome.looping,
            state := tickWith cfg (runLoop cfg d st (ts.take i)).state s
              (ts.get ⟨i, h⟩).pushErr } := by
  have e : ts.take (i + 1) = ts.take i ++ [ts.get ⟨i, h⟩] := by
    rw [List.take_succ, List.getElem?_eq_getElem h]
    rfl
  have hlast : ts.get ⟨i, h⟩ ∈ ts.take (i + 1) := by
    rw [e]
    exact List.mem_append_right _ (List.mem_singleton_self _)
  obtain ⟨s, hs⟩ := hret _ hlast
  have hpre : ∀ t ∈ ts.take i, ∃ s, GetDevice t.bus d = Ret.ok s := by
    intro t ht
    apply hret
    rw [e]
    exact List.mem_append_left _ ht
  obtain ⟨h1, h2⟩ := runLoop_append_ok cfg d (ts.take i) [ts.get ⟨i, h⟩] st hpre
  refine ⟨s, hs, h1, ?_⟩
  rw [e, h2, runLoop_cons_ok cfg d _ _ [] s hs, runLoop_nil]

theorem runLoop_lost (cfg : Config) (d : ObjectPath) (ts : List Tick) (st : LoopState)
    (hret : ∀ t ∈ ts, ∃ s, GetDevice t.bus d = Ret.ok s) :
    (runLoop cfg d st ts).state.lost
      = (((ts.getLast?).bind (observed d)).map (fun c => !c)).getD st.lost := by
  induction ts generalizing st with
  | nil => rfl
  | cons t ts ih =>
    obtain ⟨s, hs⟩ := hret t (List.mem_cons_self t ts)
    rw [runLoop_cons_ok cfg d st t ts s hs,
      ih _ (fun u hu => hret u (List.mem_cons_of_mem t hu))]
    cases ts with
    | nil => simp [tickWith_lost, observed_of_ok d t s hs]
    | cons u us =>
      rw [List.getLast?_cons_cons]
      obtain ⟨s', hs'⟩ := hret ((u :: us).getLast (List.cons_ne_nil u us))
        (List.mem_cons_of_mem t (List.getLast_mem _))
      rw [List.getLast?_eq_getLast (u :: us) (List.cons_ne_nil u us)]
      simp [observed_of_ok d _ s' hs']

theorem runLoop_trace (cfg : Config) (d : ObjectPath) (ts : List Tick) :
    ∀ (cs : List Bool) (st : LoopState), ts.map (observed d) = cs.map some →
      (runLoop cfg d st ts).outcome = Outcome.looping ∧
      (runLoop cfg d st ts).state.log.filter LogEntry.isLine
        = st.log.filter LogEntry.isLine ++ edgeLines st.lost cs ∧
      ((∀ u ∈ ts, u.pushErr = none) →
        (runLoop cfg d st ts).state.log = st.log ++ edgeLines st.lost cs) := by
  induction ts with
  | nil =>
    intro cs st h
    cases cs with
    | nil => simp [runLoop_nil, edgeLines]
    | cons c cs => simp at h
  | cons t ts ih =>
    intro cs st h
    cases cs with
    | nil => simp at h
    | cons c cs =>
      simp only [List.map_cons, List.cons.injEq] at h
      obtain ⟨s, hs, hc⟩ := observed_eq_some d t c h.1
      obtain ⟨h1, h2, h3⟩ := ih cs (tickWith cfg st s t.pushErr) h.2
      rw [runLoop_cons_ok cfg d st t ts s hs]
      refine ⟨h1, ?_, ?_⟩
      · rw [h2, tickWith_log, tickWith_lost, hc]
        simp only [List.filter_append, pushLog_filter, edgeLines, List.append_nil,
          List.append_assoc]
        cases c <;> cases st.lost <;> simp [LogEntry.isLine]
      · intro hok
        have ht : t.pushErr = none := hok t (List.mem_cons_self t ts)
        rw [h3 (fun u hu => hok u (List.mem_cons_of_mem t hu)), tickWith_log, tickWith_lost,
          hc, ht]
        simp [edgeLines, pushLog]

theorem tickWith_sameSamples (cfg : Config) (a b : LoopState) (s : Device)
    (e e' : Option String) (hab : SameSamples a b) :
    SameSamples (tickWith cfg a s e) (tickWith cfg b s e') := by
  obtain ⟨_, _, _, h4, h5⟩ := hab
  obtain ⟨ha1, ha2, ha3⟩ := tickWith_sample cfg a s e
  obtain ⟨hb1, hb2, hb3⟩ := tickWith_sample cfg b s e'
  refine ⟨?_, ?_, ?_, ?_, ?_⟩
  · rw [tickWith_lost, tickWith_lost]
  · rw [ha1, hb1]
  · rw [ha2, hb2]
  · rw [ha3, hb3]
    simp [h4]
  · rw [tickWith_slept, tickWith_slept, h5]

theorem runLoop_sameSamples (cfg : Config) (d : ObjectPath) (ts : List Tick) :
    ∀ (us : List Tick) (a b : LoopState), SameSamples a b →
      ts.map Tick.bus = us.map Tick.bus →
      (runLoop cfg d a ts).outcome = (runLoop cfg d b us).outcome ∧
      SameSamples (runLoop cfg d a ts).state (runLoop cfg d b us).state := by
  induction ts with
  | nil =>
    intro us a b hab h
    cases us with
    | nil => exact ⟨rfl, hab⟩
    | cons u us => simp at h
  | cons t ts ih =>
    intro us a b hab h
    cases us with
    | nil => simp at h
    | cons u us =>
      simp only [List.map_cons, List.cons.injEq] at h
      cases hg : GetDevice t.bus d with
      | ok s =>
        have hg' : GetDevice u.bus d = Ret.ok s := by rw [← h.1]; exact hg
        rw [runLoop_cons_ok cfg d a t ts s hg, runLoop_cons_ok cfg d b u us s hg']
        exact ih us _ _ (tickWith_sameSamples cfg a b s t.pushErr u.pushErr hab) h.2
      | exit code => exact absurd hg (GetDevice_ne_exit _ _ _)
      | panic =>
        have hg' : GetDevice u.bus d = Ret.panic := by rw [← h.1]; exact hg
        rw [runLoop_cons_panic cfg d a t ts hg, runLoop_cons_panic cfg d b u us hg']
        exact ⟨rfl, hab⟩

theorem runLoop_counts (cfg : Config) (d : ObjectPath) (ts : List Tick) (st : LoopState)
    (hret : ∀ t ∈ ts, ∃ s, GetDevice t.bus d = Ret.ok s) :
    (runLoop cfg d st ts).state.pushes.length = st.pushes.length + ts.length ∧
    (runLoop cfg d st ts).state.slept
      = st.slept ++ List.replicate ts.length cfg.interval := by
  induction ts generalizing st with
  | nil => simp [runLoop_nil]
  | cons t ts ih =>
    obtain ⟨s, hs⟩ := hret t (List.mem_cons_self t ts)
    obtain ⟨h1, h2⟩ := ih (tickWith cfg st s t.pushErr)
      (fun u hu => hret u (List.mem_cons_of_mem t hu))
    rw [runLoop_cons_ok cfg d st t ts s hs, h1, h2, (tickWith_sample cfg st s t.pushErr).2.2,
      tickWith_slept]
    constructor
    · simp only [List.length_append, List.length_cons, List.length_nil]
      omega
    · simp [List.replicate_succ]

/-! ## Lemmas on the directory -/

theorem findByAddress_eq_none_iff (bus : Bus) (address : String) (l : List ObjectPath) :
    findByAddress bus address l = Ret.ok none ↔
      ∀ x ∈ l, ∃ s, GetDevice bus x = Ret.ok s ∧ s.address ≠ address := by
  induction l with
  | nil => simp [findByAddress]
  | cons d rest ih =>
    cases hg : GetDevice bus d with
    | ok s =>
      by_cases h : s.address = address
      · simp [findByAddress, hg, h]
      · simp [findByAddress, hg, h, ih]
    | exit code => simp [findByAddress, hg]
    | panic => simp [findByAddress, hg]

theorem findByAddress_eq_some_iff (bus : Bus) (address : String) (l : List ObjectPath)
    (d : ObjectPath) :
    findByAddress bus address l = Ret.ok (some d) ↔
      ∃ pre post, l = pre ++ d :: post ∧
        (∀ x ∈ pre, ∃ s, GetDevice bus x = Ret.ok s ∧ s.address ≠ address) ∧
        ∃ s, GetDevice bus d = Ret.ok s ∧ s.address = address := by
  induction l with
  | nil => simp [findByAddress]
  | cons e rest ih =>
    cases hg : GetDevice bus e with
    | ok s =>
      by_cases h : s.address = address
      · simp only [findByAddress, hg, h, if_true, Ret.ok.injEq, Option.some.injEq]
        constructor
        · intro hed
          subst hed
          exact ⟨[], rest, rfl, by simp, s, hg, h⟩
        · rintro ⟨pre, post, hl, hpre, _⟩
          cases pre with
          | nil =>
            simp only [List.nil_append, List.cons.injEq] at hl
            exact hl.1
          | cons x xs =>
            simp only [List.cons_append, List.cons.injEq] at hl
            obtain ⟨s', hs', hne⟩ := hpre x (List.mem_cons_self x xs)
            rw [← hl.1, hg] at hs'
            simp only [Ret.ok.injEq] at hs'
            exact absurd (hs' ▸ h) hne
      · simp only [findByAddress, hg, h, if_false, ih]
        constructor
        · rintro ⟨pre, post, hl, hpre, hd⟩
          refine ⟨e :: pre, post, by simp [hl], ?_, hd⟩
          intro x hx
          rcases List.mem_cons.mp hx with hx | hx
          · exact ⟨s, hx ▸ hg, h⟩
          · exact hpre x hx
        · rintro ⟨pre, post, hl, hpre, s', hs', hd⟩
          cases pre with
          | nil =>
            simp only [List.nil_append, List.cons.injEq] at hl
            rw [← hl.1, hg] at hs'
            simp only [Ret.ok.injEq] at hs'
            exact absurd (hs' ▸ hd) h
          | cons x xs =>
            simp only [List.cons_append, List.cons.injEq] at hl
            exact ⟨xs, post, hl.2, fun y hy => hpre y (List.mem_cons_of_mem x hy), s', hs', hd⟩
    | exit code =>
      simp only [findByAddress, hg]
      constructor
      · intro h
        simp at h
      · rintro ⟨pre, post, hl, hpre, s', hs', _⟩
        cases pre with
        | nil =>
          simp only [List.nil_append, List.cons.injEq] at hl
          rw [← hl.1, hg] at hs'
          simp at hs'
        | cons x xs =>
          simp only [List.cons_append, List.cons.injEq] at hl
          obtain ⟨s2, hs2, _⟩ := hpre x (List.mem_cons_self x xs)
          rw [← hl.1, hg] at hs2
          simp at hs2
    | panic =>
      simp only [findByAddress, hg]
      constructor
      · intro h
        simp at h
      · rintro ⟨pre, post, hl, hpre, s', hs', _⟩
        cases pre with
        | nil =>
          simp only [List.nil_append, List.cons.injEq] at hl
          rw [← hl.1, hg] at hs'
          simp at hs'
        | cons x xs =>
          simp only [List.cons_append, List.cons.injEq] at hl
          obtain ⟨s2, hs2, _⟩ := hpre x (List.mem_cons_self x xs)
          rw [← hl.1, hg] at hs2
          simp at hs2

theorem toGoInt_of_small (v : Int) (h0 : -(2 ^ 63) ≤ v) (h1 : v < 2 ^ 63) : toGoInt v = v := by
  unfold toGoInt
  have e : (v + 2 ^ 63) % 2 ^ 64 = v + 2 ^ 63 := by
    apply Int.emod_eq_of_lt
    · omega
    · norm_num at h1 ⊢
      omega
  rw [e]
  omega

/-! ## The claims -/

/-- C1. Edge logger of the sampling loop. The loop starts with `lost = true`.
For every finite sequence of ticks and every tick `i` of it such that the
reads up to and including tick `i` return a snapshot, with `c` the connected
observation of tick `i`, `pre` and `post` the loop states before and after
that tick and `new` the lines the tick appends to the log: the loop is still
running; `pre.lost` is `true` before the first tick and afterwards the
negation of the previous observation; "Connected" is logged iff `c` is
connected and `pre.lost = true`; "Disconnected" is logged iff `c` is not
connected and `pre.lost = false`; when the observation matches the state
nothing is logged by the edge logger (only the error of a failed push, if
any); and the tick leaves `lost` the negation of the observation. Every run
whose observations are 0, 0, 1, 1, 0 logs exactly the lines "Connected",
"Disconnected", in that order (and nothing else when no push fails). -/
theorem C1_edge_logger (cfg : Config) (d : ObjectPath) (log0 : List LogEntry)
    (ticks : List Tick) (i : Nat) (h : i < ticks.length)
    (hret : ∀ t ∈ ticks.take (i + 1), ∃ s, GetDevice t.bus d = Ret.ok s) :
    let pre := (runLoop cfg d (loopInit log0) (ticks.take i)).state
    let post := (runLoop cfg d (loopInit log0) (ticks.take (i + 1))).state
    let t := ticks.get ⟨i, h⟩
    let new := post.log.drop pre.log.length
    (∃ c, observed d t = some c ∧
      (loopInit log0).lost = true ∧
      (runLoop cfg d (loopInit log0) (ticks.take (i + 1))).outcome = Outcome.looping ∧
      pre.lost = ((((ticks.take i).getLast?).bind (observed d)).map (fun c => !c)).getD true ∧
      post.log = pre.log ++ new ∧
      (LogEntry.line "Connected" ∈ new ↔ c = true ∧ pre.lost = true) ∧
      (LogEntry.line "Disconnected" ∈ new ↔ c = false ∧ pre.lost = false) ∧
      (c = !pre.lost → new = pushLog t.pushErr) ∧
      post.lost = !c) ∧
    (∀ ts : List Tick,
      ts.map (observed d) = [some false, some false, some true, some true, some false] →
      (runLoop cfg d (loopInit []) ts).outcome = Outcome.looping ∧
      (runLoop cfg d (loopInit []) ts).state.log.filter LogEntry.isLine
        = [LogEntry.line "Connected", LogEntry.line "Disconnected"] ∧
      ((∀ u ∈ ts, u.pushErr = none) →
        (runLoop cfg d (loopInit []) ts).state.log
          = [LogEntry.line "Connected", LogEntry.line "Disconnected"])) := by
  intro pre post t new
  obtain ⟨s, hs, _, hrun⟩ := runLoop_take_succ cfg d (loopInit log0) ticks i h hret
  have hpost : post = tickWith cfg pre s t.pushErr := by
    show (runLoop cfg d (loopInit log0) (ticks.take (i + 1))).state = _
    rw [hrun]
  have hlog := tickWith_log cfg pre s t.pushErr
  have hnew : new
      = (if s.connected && pre.lost then [LogEntry.line "Connected"]
          else if !s.connected && !pre.lost then [LogEntry.line "Disconnected"]
          else [])
        ++ pushLog t.pushErr := by
    show post.log.drop pre.log.length = _
    rw [hpost, hlog, List.append_assoc, List.drop_left]
  have hpre : ∀ u ∈ ticks.take i, ∃ s, GetDevice u.bus d = Ret.ok s := by
    intro u hu
    apply hret
    rw [List.take_succ]
    exact List.mem_append_left _ hu
  constructor
  · refine ⟨s.connected, observed_of_ok d t s hs, rfl, ?_,
      runLoop_lost cfg d (ticks.take i) (loopInit log0) hpre, ?_, ?_, ?_, ?_, ?_⟩
    · rw [hrun]
    · rw [hnew, hpost, hlog, List.append_assoc]
    · rw [hnew]
      cases s.connected <;> cases pre.lost <;> simp [line_not_mem_pushLog]
    · rw [hnew]
      cases s.connected <;> cases pre.lost <;> simp [line_not_mem_pushLog]
    · rw [hnew]
      cases s.connected <;> cases pre.lost <;> simp
    · rw [hpost, tickWith_lost]
  · intro ts hts
    obtain ⟨h1, h2, h3⟩ :=
      runLoop_trace cfg d ts [false, false, true, true, false] (loopInit []) hts
    exact ⟨h1, h2, h3⟩

/-- Witness of C1: the third tick of the run 0, 0, 1, 1, 0. -/
theorem C1_edge_logger_witness :
    2 < ([false, false, true, true, false].map obsTick).length ∧
    (∀ t ∈ ([false, false, true, true, false].map obsTick).take (2 + 1),
      ∃ s, GetDevice t.bus "/p" = Ret.ok s) ∧
    (runLoop cfg0 "/p" (loopInit [])
        (([false, false, true, true, false].map obsTick).take 3)).state.log
      = [LogEntry.line "Connected"] ∧
    (runLoop cfg0 "/p" (loopInit []) ([false, false, true, true, false].map obsTick)).state.log
      = [LogEntry.line "Connected", LogEntry.line "Disconnected"] :=
  ⟨by decide,
    by
      intro t ht
      simp only [List.map_cons, List.map_nil, List.take_succ_cons, List.take_zero,
        List.mem_cons, List.mem_singleton, List.not_mem_nil, or_false] at ht
      rcases ht with rfl | rfl | rfl <;> exact ⟨_, rfl⟩,
    by decide,
    ((C1_edge_logger cfg0 "/p" [] ([false, false, true, true, false].map obsTick) 2
      (by decide)
      (by
        intro t ht
        simp only [List.map_cons, List.map_nil, List.take_succ_cons, List.take_zero,
          List.mem_cons, List.mem_singleton, List.not_mem_nil, or_false] at ht
        rcases ht with rfl | rfl | rfl <;> exact ⟨_, rfl⟩)).2
      ([false, false, true, true, false].map obsTick) (by decide)).2.2
      (by
        intro u hu
        simp only [List.map_cons, List.map_nil, List.mem_cons, List.mem_singleton,
          List.not_mem_nil, or_false] at hu
        rcases hu with rfl | rfl | rfl | rfl | rfl <;> rfl)⟩

/-- C2. Per-tick gauge values. For every snapshot `s` that `GetDevice` returns
in a tick, the tick completes and leaves the gauges at `(s.percentage, 1)` when
`s.connected` and at `(0, 0)` otherwise, whatever `s.percentage` is; in
particular a connected snapshot with percentage `-1` leaves
`battery_level = -1`. These are the values the push of that tick carries. -/
theorem C2_gauge_values (cfg : Config) (d : ObjectPath) (st : LoopState) (t : Tick)
    (s : Device) (hs : GetDevice t.bus d = Ret.ok s) :
    ∃ st', tick cfg d st t = Ret.ok st' ∧
      (st'.battery, st'.connected) = (if s.connected then (s.percentage, 1) else (0, 0)) ∧
      (s.connected = true → s.percentage = -1 → st'.battery = -1 ∧ st'.connected = 1) ∧
      (s.connected = false → st'.battery = 0 ∧ st'.connected = 0) ∧
      st'.pushes = st.pushes ++
        [({ endpoint := cfg.pep, job := cfg.pj, address := cfg.device,
            battery_level := if s.connected then s.percentage else 0,
            connected := if s.connected then 1 else 0,
            err := t.pushErr } : Push)] := by
  obtain ⟨hb, hc, hp⟩ := tickWith_sample cfg st s t.pushErr
  refine ⟨tickWith cfg st s t.pushErr, tick_of_ok cfg d st t s hs, ?_, ?_, ?_, hp⟩
  · rw [hb, hc]
    cases s.connected <;> rfl
  · intro h1 h2
    rw [hb, hc, h1, h2]
    exact ⟨rfl, rfl⟩
  · intro h1
    rw [hb, hc, h1]
    exact ⟨rfl, rfl⟩

/-- Witness of C2: a connected headset at 77. -/
theorem C2_gauge_values_witness :
    GetDevice (obsTick true).bus "/p"
      = Ret.ok ⟨"WH-1000XM4", 77, "AA:BB:CC:DD:EE:FF", true, true⟩ ∧
    ∃ st', tick cfg0 "/p" (loopInit []) (obsTick true) = Ret.ok st' ∧
      (st'.battery, st'.connected) = (77, 1) :=
  ⟨by decide,
    (C2_gauge_values cfg0 "/p" (loopInit []) (obsTick true)
      ⟨"WH-1000XM4", 77, "AA:BB:CC:DD:EE:FF", true, true⟩ (by decide)).imp
      (fun _ hst => ⟨hst.1, hst.2.1⟩)⟩

/-- C3, what the code does. In every tick in which the bulk property fetch
yields no property map, the unguarded `info["Connected"].Store(&connec)` runs
on the zero `Variant` and panics: `GetDevice` returns no snapshot, the tick
sets no gauge and pushes nothing, and the run ends there in the state the
previous ticks left, whatever ticks would follow. -/
theorem C3_read_failure_panics (cfg : Config) (d : ObjectPath) (st : LoopState) (t : Tick)
    (rest : List Tick) (hfail : t.bus.getAll d = []) :
    GetDevice t.bus d = Ret.panic ∧
    tick cfg d st t = Ret.panic ∧
    runLoop cfg d st (t :: rest) = { outcome := Outcome.panicked, state := st } := by
  have hp : GetDevice t.bus d = Ret.panic := by
    apply GetDevice_panic_of
    left
    rw [hfail]
    rfl
  exact ⟨hp, tick_of_panic cfg d st t hp, runLoop_cons_panic cfg d st t rest hp⟩

/-- Witness of C3: a failed property fetch in the first tick of a run. -/
theorem C3_read_failure_panics_witness :
    (busOf [] Variant.null).getAll "/p" = [] ∧
    runLoop cfg0 "/p" (loopInit []) [{ bus := busOf [] Variant.null, pushErr := none },
        obsTick true]
      = { outcome := Outcome.panicked, state := loopInit [] } :=
  ⟨rfl,
    (C3_read_failure_panics cfg0 "/p" (loopInit [])
      { bus := busOf [] Variant.null, pushErr := none } [obsTick true] rfl).2.2⟩

/-- C4. For every property map and every battery-interface reply, a snapshot
returned by `GetDevice` with `paired = false` has `percentage = -1`; the
battery reply plays no part in it: replacing the battery interface by any
other leaves the snapshot unchanged. -/
theorem C4_unpaired_percentage (bus : Bus) (obj : ObjectPath) (s : Device)
    (hs : GetDevice bus obj = Ret.ok s) (hp : s.paired = false) :
    s.percentage = -1 ∧
    ∀ battery : ObjectPath → Variant,
      GetDevice { bus with getBattery := battery } obj = Ret.ok s := by
  obtain ⟨hC, hP, hsnap⟩ := GetDevice_ok_inv bus obj s hs
  have hpb : ((bus.getAll obj).index "Paired").asBool = false := by
    rw [hsnap] at hp
    exact hp
  constructor
  · rw [hsnap]
    simp [snapshotOf, hpb]
  · intro battery
    rw [GetDevice_ok_of { bus with getBattery := battery } obj hC hP, hsnap]
    simp [snapshotOf, hpb]

/-- Witness of C4: an unpaired device whose battery interface would answer 55. -/
theorem C4_unpaired_percentage_witness :
    GetDevice (busOf [("Connected", Variant.bool true), ("Paired", Variant.bool false)]
        (Variant.int 55)) "/p" = Ret.ok ⟨"", -1, "", true, false⟩ ∧
    GetDevice (busOf [("Connected", Variant.bool true), ("Paired", Variant.bool false)]
        (Variant.int 99)) "/p" = Ret.ok ⟨"", -1, "", true, false⟩ :=
  ⟨by decide,
    (C4_unpaired_percentage
      (busOf [("Connected", Variant.bool true), ("Paired", Variant.bool false)] (Variant.int 55))
      "/p" ⟨"", -1, "", true, false⟩ (by decide) rfl).2 (fun _ => Variant.int 99)⟩

/-- C5, as stated, fails: a connected, paired device whose battery interface
answers the byte 200 gets a snapshot with `percentage = 200`, which is neither
`-1` nor within 0..100. -/
theorem C5_counterexample :
    GetDevice (busOf (infoOf true "AA:BB:CC:DD:EE:FF") (Variant.int 200)) "/p"
      = Ret.ok ⟨"WH-1000XM4", 200, "AA:BB:CC:DD:EE:FF", true, true⟩ ∧
    ¬ ((⟨"WH-1000XM4", 200, "AA:BB:CC:DD:EE:FF", true, true⟩ : Device).percentage = -1 ∨
       (0 ≤ (⟨"WH-1000XM4", 200, "AA:BB:CC:DD:EE:FF", true, true⟩ : Device).percentage ∧
        (⟨"WH-1000XM4", 200, "AA:BB:CC:DD:EE:FF", true, true⟩ : Device).percentage ≤ 100)) := by
  decide

/-- C5, amended. `GetDevice` stores a numeric battery reply as it is, without
coercing it into a range. For every snapshot `s` it returns: `s.percentage` is
`-1`, or the device is paired and `s.percentage` is the reply converted to
`int` (an integer as it is, a double truncated); for a paired device an integer
reply `v` that fits `int` gives `s.percentage = v`, also outside 0..100; hence
`s.percentage = -1` or `0 ≤ s.percentage ≤ 100` whenever the reply, if numeric,
lies in 0..100. -/
theorem C5_percentage_stored_as_is (bus : Bus) (obj : ObjectPath) (s : Device)
    (hs : GetDevice bus obj = Ret.ok s) :
    (s.percentage = -1 ∨
      (s.paired = true ∧
        ((∃ v, bus.getBattery obj = Variant.int v ∧ s.percentage = toGoInt v) ∨
         (∃ num den, bus.getBattery obj = Variant.double num den ∧
            s.percentage = toGoInt (Int.tdiv num den))))) ∧
    (∀ v, s.paired = true → bus.getBattery obj = Variant.int v →
      -(2 ^ 63) ≤ v → v < 2 ^ 63 → s.percentage = v) ∧
    ((∀ v, bus.getBattery obj = Variant.int v → 0 ≤ v ∧ v ≤ 100) →
     (∀ num den, bus.getBattery obj = Variant.double num den →
        0 ≤ Int.tdiv num den ∧ Int.tdiv num den ≤ 100) →
      s.percentage = -1 ∨ (0 ≤ s.percentage ∧ s.percentage ≤ 100)) := by
  obtain ⟨_, _, hsnap⟩ := GetDevice_ok_inv bus obj s hs
  have hperc : s.percentage
      = if s.paired then percOf (bus.getBattery obj) else -1 := by
    rw [hsnap]
    rfl
  have hsmall : ∀ v : Int, 0 ≤ v → v ≤ 100 → toGoInt v = v := by
    intro v h0 h1
    apply toGoInt_of_small
    · have : (0 : Int) ≤ 2 ^ 63 := by norm_num
      omega
    · have : (100 : Int) < 2 ^ 63 := by norm_num
      omega
  refine ⟨?_, ?_, ?_⟩
  · rw [hperc]
    cases hpair : s.paired with
    | false => exact Or.inl rfl
    | true =>
      cases hb : bus.getBattery obj with
      | int v => exact Or.inr ⟨rfl, Or.inl ⟨v, rfl, rfl⟩⟩
      | double num den => exact Or.inr ⟨rfl, Or.inr ⟨num, den, rfl, rfl⟩⟩
      | null => exact Or.inl rfl
      | bool b => exact Or.inl rfl
      | str x => exact Or.inl rfl
      | other => exact Or.inl rfl
  · intro v hpair hb h0 h1
    rw [hperc, hpair, hb]
    exact toGoInt_of_small v h0 h1
  · intro hint hdbl
    rw [hperc]
    cases hpair : s.paired with
    | false => exact Or.inl rfl
    | true =>
      cases hb : bus.getBattery obj with
      | int v =>
        obtain ⟨h0, h1⟩ := hint v hb
        right
        show 0 ≤ toGoInt v ∧ toGoInt v ≤ 100
        rw [hsmall v h0 h1]
        exact ⟨h0, h1⟩
      | double num den =>
        obtain ⟨h0, h1⟩ := hdbl num den hb
        right
        show 0 ≤ toGoInt (Int.tdiv num den) ∧ toGoInt (Int.tdiv num den) ≤ 100
        rw [hsmall _ h0 h1]
        exact ⟨h0, h1⟩
      | null => exact Or.inl rfl
      | bool b => exact Or.inl rfl
      | str x => exact Or.inl rfl
      | other => exact Or.inl rfl

/-- Witness of C5 amended: a paired headset reporting 250 is read as 250. -/
theorem C5_percentage_stored_as_is_witness :
    GetDevice (busOf (infoOf false "AA:BB:CC:DD:EE:FF") (Variant.int 250)) "/p"
      = Ret.ok ⟨"WH-1000XM4", 250, "AA:BB:CC:DD:EE:FF", false, true⟩ ∧
    (⟨"WH-1000XM4", 250, "AA:BB:CC:DD:EE:FF", false, true⟩ : Device).percentage = 250 :=
  ⟨by decide,
    (C5_percentage_stored_as_is (busOf (infoOf false "AA:BB:CC:DD:EE:FF") (Variant.int 250))
      "/p" ⟨"WH-1000XM4", 250, "AA:BB:CC:DD:EE:FF", false, true⟩ (by decide)).2.1 250 rfl rfl
      (by decide) (by decide)⟩

/-- C6, as stated, fails: with one enumerated device, connected and paired,
reporting the address `AA:BB:CC:DD:EE:FF`, the request `aa:bb:cc:dd:ee:ff`
finds nothing, whereas the case-insensitive resolution of the specification
finds that device. -/
theorem C6_counterexample :
    SearchAll (busOf (infoOf true "AA:BB:CC:DD:EE:FF") (Variant.int 77))
      = Ret.ok ["/org/bluez/hci0/dev_AA"] ∧
    GetDevice (busOf (infoOf true "AA:BB:CC:DD:EE:FF") (Variant.int 77))
        "/org/bluez/hci0/dev_AA"
      = Ret.ok ⟨"WH-1000XM4", 77, "AA:BB:CC:DD:EE:FF", true, true⟩ ∧
    GetDeviceByAddress (busOf (infoOf true "AA:BB:CC:DD:EE:FF") (Variant.int 77))
      "aa:bb:cc:dd:ee:ff" = Ret.ok none ∧
    specResolve (busOf (infoOf true "AA:BB:CC:DD:EE:FF") (Variant.int 77))
      "aa:bb:cc:dd:ee:ff" ["/org/bluez/hci0/dev_AA"]
      = Ret.ok (some "/org/bluez/hci0/dev_AA") := by
  decide

/-- C6, amended. Address resolution is first-match under exact
(case-sensitive) string equality: when the enumeration yields `devices`,
`GetDeviceByAddress` returns the handle `d` iff `d` is the first handle in
enumeration order whose snapshot has an address equal to the requested one
(the devices before it having been read with a different address), and
returns `nil` iff every enumerated device is read with an address different
from it. -/
theorem C6_first_exact_match (bus : Bus) (address : String) (devices : List ObjectPath)
    (henum : SearchAll bus = Ret.ok devices) :
    (∀ d, GetDeviceByAddress bus address = Ret.ok (some d) ↔
      ∃ pre post, devices = pre ++ d :: post ∧
        (∀ x ∈ pre, ∃ s, GetDevice bus x = Ret.ok s ∧ s.address ≠ address) ∧
        ∃ s, GetDevice bus d = Ret.ok s ∧ s.address = address) ∧
    (GetDeviceByAddress bus address = Ret.ok none ↔
      ∀ x ∈ devices, ∃ s, GetDevice bus x = Ret.ok s ∧ s.address ≠ address) := by
  have e : GetDeviceByAddress bus address = findByAddress bus address devices := by
    simp [GetDeviceByAddress, henum]
  constructor
  · intro d
    rw [e]
    exact findByAddress_eq_some_iff bus address devices d
  · rw [e]
    exact findByAddress_eq_none_iff bus address devices

/-- Witness of C6 amended: the request in the spelling the device reports
resolves it. -/
theorem C6_first_exact_match_witness :
    SearchAll (busOf (infoOf true "AA:BB:CC:DD:EE:FF") (Variant.int 77))
      = Ret.ok ["/org/bluez/hci0/dev_AA"] ∧
    GetDeviceByAddress (busOf (infoOf true "AA:BB:CC:DD:EE:FF") (Variant.int 77))
      "AA:BB:CC:DD:EE:FF" = Ret.ok (some "/org/bluez/hci0/dev_AA") :=
  ⟨by decide,
    ((C6_first_exact_match (busOf (infoOf true "AA:BB:CC:DD:EE:FF") (Variant.int 77))
      "AA:BB:CC:DD:EE:FF" ["/org/bluez/hci0/dev_AA"] (by decide)).1
        "/org/bluez/hci0/dev_AA").mpr
      ⟨[], [], rfl, by simp, ⟨"WH-1000XM4", 77, "AA:BB:CC:DD:EE:FF", true, true⟩,
        by decide, rfl⟩⟩

/-- C7. Address not found at startup. Whenever the enumeration succeeds and
every enumerated device is read with an address different from the configured
one (in particular one that does not match it case-insensitively),
`GetDeviceByAddress` returns `nil` and `RunE` returns the error
`no device found '<address>'`, whose message contains the configured address,
without entering the loop: whatever ticks would follow, no push and no sleep
is made. -/
theorem C7_address_not_found (cfg : Config) (bus : Bus) (devices : List ObjectPath)
    (ticks : List Tick)
    (henum : SearchAll bus = Ret.ok devices)
    (hnone : ∀ x ∈ devices, ∃ s, GetDevice bus x = Ret.ok s ∧ s.address ≠ cfg.device) :
    GetDeviceByAddress bus cfg.device = Ret.ok none ∧
    (RunE cfg none bus ticks).outcome
      = Outcome.failed ("no device found '" ++ cfg.device ++ "'") ∧
    (∃ before after : String,
      "no device found '" ++ cfg.device ++ "'" = before ++ cfg.device ++ after) ∧
    (RunE cfg none bus ticks).state.pushes = [] ∧
    (RunE cfg none bus ticks).state.slept = [] ∧
    (RunE cfg none bus ticks).state.log = startupLog cfg := by
  have e : GetDeviceByAddress bus cfg.device = Ret.ok none := by
    simp only [GetDeviceByAddress, henum]
    exact (findByAddress_eq_none_iff bus cfg.device devices).mpr hnone
  refine ⟨e, ?_, ⟨"no device found '", "'", rfl⟩, ?_, ?_, ?_⟩ <;>
    simp only [RunE, e, loopInit]

/-- Witness of C7: the default address against a controller that knows one
other device. -/
theorem C7_address_not_found_witness :
    SearchAll (busOf (infoOf true "AA:BB:CC:DD:EE:FF") (Variant.int 77))
      = Ret.ok ["/org/bluez/hci0/dev_AA"] ∧
    (RunE cfg0 none (busOf (infoOf true "AA:BB:CC:DD:EE:FF") (Variant.int 77))
      [obsTick true, obsTick true]).outcome
      = Outcome.failed "no device found '00:00:00:00:00:00'" ∧
    (RunE cfg0 none (busOf (infoOf true "AA:BB:CC:DD:EE:FF") (Variant.int 77))
      [obsTick true, obsTick true]).state.pushes = [] :=
  ⟨by decide,
    (C7_address_not_found cfg0 (busOf (infoOf true "AA:BB:CC:DD:EE:FF") (Variant.int 77))
      ["/org/bluez/hci0/dev_AA"] [obsTick true, obsTick true] (by decide)
      (by
        intro x hx
        rw [List.mem_singleton] at hx
        subst hx
        exact ⟨⟨"WH-1000XM4", 77, "AA:BB:CC:DD:EE:FF", true, true⟩, by decide,
          by decide⟩)).2.1,
    (C7_address_not_found cfg0 (busOf (infoOf true "AA:BB:CC:DD:EE:FF") (Variant.int 77))
      ["/org/bluez/hci0/dev_AA"] [obsTick true, obsTick true] (by decide)
      (by
        intro x hx
        rw [List.mem_singleton] at hx
        subst hx
        exact ⟨⟨"WH-1000XM4", 77, "AA:BB:CC:DD:EE:FF", true, true⟩, by decide,
          by decide⟩)).2.2.2.1⟩

/-- C8. Paired but no battery. For every property map with `Paired = true`
that carries the link state `Connected = c`, when the battery interface is
absent or its `Percentage` is null (the reply is the zero `Variant`),
`GetDevice` returns a snapshot with `paired = true`, `connected = c` and
`percentage = -1`; and if the device is connected (`c = true`), the tick
completes and leaves and pushes `battery_level = -1`, `connected = 1`. -/
theorem C8_paired_no_battery (bus : Bus) (obj : ObjectPath) (c : Bool)
    (hconn : (bus.getAll obj).lookup "Connected" = some (Variant.bool c))
    (hpaired : (bus.getAll obj).lookup "Paired" = some (Variant.bool true))
    (hbat : bus.getBattery obj = Variant.null) :
    ∃ s, GetDevice bus obj = Ret.ok s ∧
      s.paired = true ∧ s.connected = c ∧ s.percentage = -1 ∧
      (c = true →
        ∀ (cfg : Config) (st : LoopState) (pushErr : Option String),
          ∃ st', tick cfg obj st { bus := bus, pushErr := pushErr } = Ret.ok st' ∧
            st'.battery = -1 ∧ st'.connected = 1 ∧
            st'.pushes = st.pushes ++
              [({ endpoint := cfg.pep, job := cfg.pj, address := cfg.device,
                  battery_level := -1, connected := 1, err := pushErr } : Push)]) := by
  have hC := index_of_lookup_some _ _ _ hconn
  have hP := index_of_lookup_some _ _ _ hpaired
  have hs : GetDevice bus obj = Ret.ok (snapshotOf bus obj) :=
    GetDevice_ok_of bus obj (by rw [hC]; simp) (by rw [hP]; simp)
  have h1 : (snapshotOf bus obj).paired = true := by
    simp [snapshotOf, hP, Variant.asBool]
  have h2 : (snapshotOf bus obj).connected = c := by
    simp [snapshotOf, hC, Variant.asBool]
  have h3 : (snapshotOf bus obj).percentage = -1 := by
    simp [snapshotOf, hP, hbat, Variant.asBool, percOf]
  refine ⟨snapshotOf bus obj, hs, h1, h2, h3, ?_⟩
  intro hc cfg st pushErr
  have hconnected : (snapshotOf bus obj).connected = true := by rw [h2, hc]
  have h := tickWith_sample cfg st (snapshotOf bus obj) pushErr
  simp only [hconnected, h3, if_true] at h
  exact ⟨_, tick_of_ok cfg obj st { bus := bus, pushErr := pushErr } _ hs, h⟩

/-- Witness of C8: a connected, paired headset without battery interface. -/
theorem C8_paired_no_battery_witness :
    ((busOf (infoOf true "AA:BB:CC:DD:EE:FF") Variant.null).getAll "/p").lookup "Connected"
      = some (Variant.bool true) ∧
    ((busOf (infoOf true "AA:BB:CC:DD:EE:FF") Variant.null).getAll "/p").lookup "Paired"
      = some (Variant.bool true) ∧
    ∃ s, GetDevice (busOf (infoOf true "AA:BB:CC:DD:EE:FF") Variant.null) "/p" = Ret.ok s ∧
      s.connected = true ∧ s.percentage = -1 :=
  ⟨by decide, by decide,
    (C8_paired_no_battery (busOf (infoOf true "AA:BB:CC:DD:EE:FF") Variant.null) "/p" true
      (by decide) (by decide) rfl).imp
      (fun _ hs => ⟨hs.1, hs.2.2.1, hs.2.2.2.1⟩)⟩

/-- C9, what the code does. `GetDevice` does not default an absent boolean:
for every property map in which `Connected` is absent, and for every one in
which `Paired` is absent, the unguarded store runs on the zero `Variant` and
panics, so no snapshot is returned, whatever the other keys hold (for instance
the map that lacks only `Connected`). When both booleans are present they are
copied unchanged, and then an absent or null `Name` or `Address` yields `""`
and a string value of `Name` or `Address` is copied unchanged. -/
theorem C9_absent_boolean_panics (bus : Bus) (obj : ObjectPath) :
    ((bus.getAll obj).lookup "Connected" = none → GetDevice bus obj = Ret.panic) ∧
    ((bus.getAll obj).lookup "Paired" = none → GetDevice bus obj = Ret.panic) ∧
    GetDevice (busOf [("Address", Variant.str "AA:BB:CC:DD:EE:FF"),
        ("Name", Variant.str "WH-1000XM4"), ("Paired", Variant.bool true)] (Variant.int 77))
      "/p" = Ret.panic ∧
    (∀ c p, (bus.getAll obj).lookup "Connected" = some (Variant.bool c) →
      (bus.getAll obj).lookup "Paired" = some (Variant.bool p) →
      ∃ s, GetDevice bus obj = Ret.ok s ∧ s.connected = c ∧ s.paired = p ∧
        ((bus.getAll obj).lookup "Name" = none ∨
          (bus.getAll obj).lookup "Name" = some Variant.null → s.name = "") ∧
        ((bus.getAll obj).lookup "Address" = none ∨
          (bus.getAll obj).lookup "Address" = some Variant.null → s.address = "") ∧
        (∀ n, (bus.getAll obj).lookup "Name" = some (Variant.str n) → s.name = n) ∧
        (∀ a, (bus.getAll obj).lookup "Address" = some (Variant.str a) → s.address = a)) := by
  refine ⟨?_, ?_, by decide, ?_⟩
  · intro h
    exact GetDevice_panic_of bus obj (Or.inl (index_of_lookup_none _ _ h))
  · intro h
    exact GetDevice_panic_of bus obj (Or.inr (index_of_lookup_none _ _ h))
  · intro c p hc hp
    have hC := index_of_lookup_some _ _ _ hc
    have hP := index_of_lookup_some _ _ _ hp
    refine ⟨snapshotOf bus obj,
      GetDevice_ok_of bus obj (by rw [hC]; simp) (by rw [hP]; simp), ?_, ?_, ?_, ?_, ?_, ?_⟩
    · simp [snapshotOf, hC, Variant.asBool]
    · simp [snapshotOf, hP, Variant.asBool]
    · intro h
      rcases h with h | h
      · simp [snapshotOf, index_of_lookup_none _ _ h, Variant.asString]
      · simp [snapshotOf, index_of_lookup_some _ _ _ h, Variant.asString]
    · intro h
      rcases h with h | h
      · simp [snapshotOf, index_of_lookup_none _ _ h, Variant.asString]
      · simp [snapshotOf, index_of_lookup_some _ _ _ h, Variant.asString]
    · intro n h
      simp [snapshotOf, index_of_lookup_some _ _ _ h, Variant.asString]
    · intro a h
      simp [snapshotOf, index_of_lookup_some _ _ _ h, Variant.asString]

/-- C10. Push failure is transient. Two runs of the loop from the same state
that meet the same bus replies tick by tick, but arbitrary push results, stand
the same way and end with the same `lost`, the same gauge values, the same
pushed samples and the same sleeps; when every read returns a snapshot both
are still looping and each has made one push and one sleep per tick, whatever
the pushes returned; and a resolved run of `RunE` is the run of the loop on
its ticks. -/
theorem C10_push_failure_transient (cfg : Config) (d : ObjectPath) (st : LoopState)
    (ts us : List Tick) (hbus : ts.map Tick.bus = us.map Tick.bus) :
    (runLoop cfg d st ts).outcome = (runLoop cfg d st us).outcome ∧
    (runLoop cfg d st ts).state.lost = (runLoop cfg d st us).state.lost ∧
    (runLoop cfg d st ts).state.battery = (runLoop cfg d st us).state.battery ∧
    (runLoop cfg d st ts).state.connected = (runLoop cfg d st us).state.connected ∧
    (runLoop cfg d st ts).state.pushes.map (fun p => (p.battery_level, p.connected, p.address))
      = (runLoop cfg d st us).state.pushes.map
          (fun p => (p.battery_level, p.connected, p.address)) ∧
    (runLoop cfg d st ts).state.slept = (runLoop cfg d st us).state.slept ∧
    ((∀ t ∈ ts, ∃ s, GetDevice t.bus d = Ret.ok s) →
      (runLoop cfg d st ts).outcome = Outcome.looping ∧
      (runLoop cfg d st us).outcome = Outcome.looping ∧
      (runLoop cfg d st ts).state.pushes.length = st.pushes.length + ts.length ∧
      (runLoop cfg d st us).state.pushes.length = st.pushes.length + ts.length ∧
      (runLoop cfg d st ts).state.slept = st.slept ++ List.replicate ts.length cfg.interval ∧
      (runLoop cfg d st us).state.slept
        = st.slept ++ List.replicate ts.length cfg.interval) ∧
    (∀ bus0, GetDeviceByAddress bus0 cfg.device = Ret.ok (some d) →
      RunE cfg none bus0 us = runLoop cfg d (loopInit (startupLog cfg)) us) := by
  obtain ⟨h0, h1, h2, h3, h4, h5⟩ :=
    runLoop_sameSamples cfg d ts us st st ⟨rfl, rfl, rfl, rfl, rfl⟩ hbus
  refine ⟨h0, h1, h2, h3, h4, h5, ?_, ?_⟩
  · intro hret
    have hlen : us.length = ts.length := by
      have := congrArg List.length hbus
      simpa using this.symm
    obtain ⟨hl, _⟩ := runLoop_append_ok cfg d ts [] st hret
    obtain ⟨hc1, hc2⟩ := runLoop_counts cfg d ts st hret
    refine ⟨hl, h0 ▸ hl, hc1, ?_, hc2, h5 ▸ hc2⟩
    have := congrArg List.length h4
    simp only [List.length_map] at this
    rw [← this]
    exact hc1
  · intro bus0 hres
    simp only [RunE, hres]

/-- Witness of C10: the same connected tick with a successful and with a
failed push. -/
theorem C10_push_failure_transient_witness :
    [obsTick true].map Tick.bus
      = [({ bus := (obsTick true).bus, pushErr := some "503" } : Tick)].map Tick.bus ∧
    (runLoop cfg0 "/p" (loopInit []) [obsTick true]).state.lost
      = (runLoop cfg0 "/p" (loopInit [])
          [({ bus := (obsTick true).bus, pushErr := some "503" } : Tick)]).state.lost ∧
    (runLoop cfg0 "/p" (loopInit [])
        [({ bus := (obsTick true).bus, pushErr := some "503" } : Tick)]).state.pushes
      = [({ endpoint := "http://localhost:9091/", job := "battery",
            address := "00:00:00:00:00:00", battery_level := 77, connected := 1,
            err := some "503" } : Push)] :=
  ⟨rfl,
    (C10_push_failure_transient cfg0 "/p" (loopInit []) [obsTick true]
      [({ bus := (obsTick true).bus, pushErr := some "503" } : Tick)] rfl).2.1,
    by decide⟩

end Hpm
